import Mathlib

/-!
Shallow embedding of the AirtimeNigeria SDK client (`src/unnamed/part_000`).

The SDK is a thin HTTP client: each domain operation validates its
parameters synchronously, builds a JSON request body, and hands it to the
single transport function `makeRequest`.  We embed each operation as a pure
function returning `Except String (RequestCall β)`: an `Except.error e`
models the operation throwing the validation error `e` synchronously
(so `makeRequest` is never invoked), and an `Except.ok call` models the
single `makeRequest(endpoint, method, body)` invocation the operation
issues.  Optional JSON body fields are `Option` fields: `none` means the
key is absent from the outgoing body.

JavaScript truthiness, which the source uses for all its presence checks
(`!phone`, `packageCode && ...`), is modelled on the relevant types:
an optional string parameter is truthy iff it is present and non-empty,
an optional number parameter is truthy iff it is present and non-zero.

The catalog helpers (`getDataPlansByOperator`, `findDataPlan`,
`getDataPlanPrice`) first `await` a catalog fetch (`getDataPlans`) and then
compute on the fetched envelope; we embed them as functions of the fetched
`DataPlansResponse` envelope.  Only the envelope fields the code reads
(`success`, `data`) are modelled.

Strings are processed through `String.toList`; the characters the source
manipulates are all single UTF-16 units, so JavaScript's index/substring
arithmetic coincides with character-list operations.
-/

namespace AirtimeNigeria

/-- The set of whitespace code points matched by JavaScript's regex class
used in `phone.replace(...)` in `isValidPhone` and `formatPhone`. -/
def isJsWhitespace (c : Char) : Bool :=
  [0x09, 0x0A, 0x0B, 0x0C, 0x0D, 0x20, 0xA0, 0x1680,
   0x2000, 0x2001, 0x2002, 0x2003, 0x2004, 0x2005, 0x2006, 0x2007,
   0x2008, 0x2009, 0x200A, 0x2028, 0x2029, 0x202F, 0x205F, 0x3000,
   0xFEFF].contains c.toNat

/-- Embeds `phone.replace(re, "")` with the whitespace regex: remove every
whitespace character. -/
def stripWs (l : List Char) : List Char :=
  l.filter (fun c => !(isJsWhitespace c))

/-- The regex character class of a decimal digit: `'0'` through `'9'`
(code points 48 to 57). -/
def isDigitCh (c : Char) : Bool :=
  48 ≤ c.toNat && c.toNat ≤ 57

/-- The suffix part of the phone regex in `isValidPhone`:
one digit in 7..9, one digit in 0..1, then exactly 8 digits, and
nothing after. -/
def local10 : List Char → Bool
  | a :: b :: rest =>
      ((a == '7') || (a == '8') || (a == '9')) &&
      ((b == '0') || (b == '1')) &&
      (rest.length == 8) && rest.all isDigitCh
  | _ => false

/-- The anchored regex of `isValidPhone` on an already-stripped character
list: an optional alternation of the country prefixes followed by the
local part.  Regex alternation with backtracking succeeds exactly when
some alternative together with the rest of the pattern succeeds, which is
this disjunction. -/
def ngMatch (l : List Char) : Bool :=
  (List.isPrefixOf ['+', '2', '3', '4'] l && local10 (l.drop 4)) ||
  (List.isPrefixOf ['2', '3', '4'] l && local10 (l.drop 3)) ||
  (List.isPrefixOf ['0'] l && local10 (l.drop 1)) ||
  local10 l

/-- Embeds the static method `isValidPhone`. -/
def isValidPhone (phone : String) : Bool :=
  ngMatch (stripWs phone.toList)

/-- The cascade of `startsWith`/`substring` branches of `formatPhone`,
applied after whitespace stripping. -/
def dropNgCode (c : List Char) : List Char :=
  if List.isPrefixOf ['+', '2', '3', '4'] c then c.drop 4
  else if List.isPrefixOf ['2', '3', '4'] c then c.drop 3
  else if List.isPrefixOf ['0'] c then c.drop 1
  else c

/-- List-level body of `formatPhone`: strip whitespace, then drop the
first matching country prefix. -/
def formatPhoneL (l : List Char) : List Char :=
  dropNgCode (stripWs l)

/-- Embeds the static method `formatPhone`. -/
def formatPhone (phone : String) : String :=
  (formatPhoneL phone.toList).asString

/-- JavaScript truthiness of an optional string parameter: present and
non-empty. -/
def truthyS : Option String → Bool
  | some s => s != ""
  | none => false

/-- JavaScript truthiness of an optional numeric parameter: present and
non-zero. -/
def truthyI : Option Int → Bool
  | some n => n != 0
  | none => false

/-- The single `makeRequest` invocation an operation issues: the endpoint,
the HTTP method, and the JSON body of type `β`. -/
structure RequestCall (β : Type) where
  endpoint : String
  method : String
  body : β
deriving DecidableEq

/-- The operator whitelist `["mtn", "airtel", "glo", "9mobile"]` the source
repeats in `purchaseAirtime` and `getDataPlansByOperator`. -/
def allowedOperators : List String :=
  ["mtn", "airtel", "glo", "9mobile"]

/-- Caller-supplied parameters of `purchaseAirtime`; every field is
optional at the JavaScript call site. -/
structure AirtimePurchaseParams where
  networkOperator : Option String
  phone : Option String
  amount : Option Int
  maxAmount : Option String
  callbackUrl : Option String
  customerReference : Option String
deriving DecidableEq

/-- The JSON body `purchaseAirtime` sends to `POST /airtime`. -/
structure AirtimeRequestBody where
  network_operator : String
  phone : String
  amount : Int
  max_amount : String
  callback_url : Option String
  customer_reference : Option String
deriving DecidableEq

/-- Embeds `purchaseAirtime`: the three validation throws in source order,
then the body built with conditional spreading of the optional fields. -/
def purchaseAirtime (params : AirtimePurchaseParams) :
    Except String (RequestCall AirtimeRequestBody) :=
  if !(truthyS params.networkOperator) || !(truthyS params.phone) ||
     !(truthyI params.amount) || !(truthyS params.maxAmount) then
    Except.error "networkOperator, phone, amount, and maxAmount are required"
  else if !(allowedOperators.contains (params.networkOperator.getD "")) then
    Except.error "Invalid network operator. Must be one of: mtn, airtel, glo, 9mobile"
  else if (params.amount.getD 0 < 50) || (50000 < params.amount.getD 0) then
    Except.error "Amount must be between 50 and 50000 NGN"
  else
    Except.ok
      { endpoint := "/airtime"
        method := "POST"
        body :=
          { network_operator := params.networkOperator.getD ""
            phone := params.phone.getD ""
            amount := params.amount.getD 0
            max_amount := params.maxAmount.getD ""
            callback_url :=
              if truthyS params.callbackUrl then params.callbackUrl else none
            customer_reference :=
              if truthyS params.customerReference then params.customerReference
              else none } }

/-- Caller-supplied parameters of `purchaseData`. -/
structure DataPurchaseParams where
  phone : Option String
  packageCode : Option String
  planId : Option Int
  maxAmount : Option String
  callbackUrl : Option String
  customerReference : Option String
deriving DecidableEq

/-- The JSON body `purchaseData` sends to `POST /data`. -/
structure DataPurchaseBody where
  phone : String
  package_code : Option String
  plan_id : Option Int
  max_amount : Option String
  callback_url : Option String
  customer_reference : Option String
deriving DecidableEq

/-- Embeds `purchaseData`: requires a truthy phone, then one of the two
plan identifiers; `package_code` is spread when truthy, `plan_id` only
when truthy and no truthy package code is present. -/
def purchaseData (params : DataPurchaseParams) :
    Except String (RequestCall DataPurchaseBody) :=
  if !(truthyS params.phone) then
    Except.error "phone is required"
  else if !(truthyS params.packageCode) && !(truthyI params.planId) then
    Except.error "Either packageCode or planId is required"
  else
    Except.ok
      { endpoint := "/data"
        method := "POST"
        body :=
          { phone := params.phone.getD ""
            package_code :=
              if truthyS params.packageCode then params.packageCode else none
            plan_id :=
              if truthyI params.planId && !(truthyS params.packageCode) then
                params.planId
              else none
            max_amount :=
              if truthyS params.maxAmount then params.maxAmount else none
            callback_url :=
              if truthyS params.callbackUrl then params.callbackUrl else none
            customer_reference :=
              if truthyS params.customerReference then params.customerReference
              else none } }

/-- Caller-supplied parameters of `vendDataFromWallet`. -/
structure DataWalletVendParams where
  phone : Option String
  packageCode : Option String
  planId : Option Int
  processType : Option String
  callbackUrl : Option String
  customerReference : Option String
deriving DecidableEq

/-- The JSON body `vendDataFromWallet` sends to `POST /data/wallet`. -/
structure DataWalletVendBody where
  phone : String
  package_code : Option String
  plan_id : Option Int
  process_type : Option String
  callback_url : Option String
  customer_reference : Option String
deriving DecidableEq

/-- Embeds `vendDataFromWallet`: like `purchaseData` plus the
`processType` check, which the source only performs when `processType`
is truthy. -/
def vendDataFromWallet (params : DataWalletVendParams) :
    Except String (RequestCall DataWalletVendBody) :=
  if !(truthyS params.phone) then
    Except.error "phone is required"
  else if !(truthyS params.packageCode) && !(truthyI params.planId) then
    Except.error "Either packageCode or planId is required"
  else if truthyS params.processType &&
      !(["queue", "instant"].contains (params.processType.getD "")) then
    Except.error "processType must be either \"queue\" or \"instant\""
  else
    Except.ok
      { endpoint := "/data/wallet"
        method := "POST"
        body :=
          { phone := params.phone.getD ""
            package_code :=
              if truthyS params.packageCode then params.packageCode else none
            plan_id :=
              if truthyI params.planId && !(truthyS params.packageCode) then
                params.planId
              else none
            process_type :=
              if truthyS params.processType then params.processType else none
            callback_url :=
              if truthyS params.callbackUrl then params.callbackUrl else none
            customer_reference :=
              if truthyS params.customerReference then params.customerReference
              else none } }

/-- A catalog entry, with the fields the type definitions and the spec's
data model list; the code reads `network_operator`, `package_code` and the
three price fields. -/
structure DataPlan where
  network_operator : String
  plan_summary : String
  package_code : String
  plan_id : Int
  validity : String
  regular_price : Int
  agent_price : Int
  dealer_price : Int
  currency : String
deriving DecidableEq

/-- The catalog envelope returned by `getDataPlans`; only the two fields
the code reads are modelled.  `data = none` models a missing/null plan
list (a JavaScript array, even empty, is truthy). -/
structure DataPlansResponse where
  success : Bool
  data : Option (List DataPlan)
deriving DecidableEq

/-- Embeds `getDataPlansByOperator` as a function of the fetched catalog
envelope: the operator whitelist throw happens before the fetch; after a
fetch, the plan list is filtered client-side when `success` and `data`
are truthy, and `[]` is returned otherwise. -/
def getDataPlansByOperator (networkOperator : String)
    (fetched : DataPlansResponse) : Except String (List DataPlan) :=
  if !(allowedOperators.contains networkOperator) then
    Except.error "Invalid network operator. Must be one of: mtn, airtel, glo, 9mobile"
  else
    match fetched.success, fetched.data with
    | true, some plans =>
        Except.ok (plans.filter (fun plan => plan.network_operator == networkOperator))
    | _, _ => Except.ok []

/-- Embeds `findDataPlan` as a function of the fetched catalog envelope:
`Array.find` on the plan list (with `|| null` mapping a miss to null),
and `null` when `success` or `data` is falsy. -/
def findDataPlan (fetched : DataPlansResponse) (packageCode : String) :
    Option DataPlan :=
  match fetched.success, fetched.data with
  | true, some plans =>
      plans.find? (fun plan => plan.package_code == packageCode)
  | _, _ => none

/-- The three price tiers accepted by `getDataPlanPrice`. -/
inductive PriceType where
  | regular
  | agent
  | dealer
deriving DecidableEq

/-- The `plan[priceType + "_price"]` field selection of
`getDataPlanPrice`. -/
def priceField (plan : DataPlan) : PriceType → Int
  | PriceType.regular => plan.regular_price
  | PriceType.agent => plan.agent_price
  | PriceType.dealer => plan.dealer_price

/-- Embeds `getDataPlanPrice` with an explicit tier argument:
`findDataPlan`, then `plan[priceKey] || null`, which maps a zero (falsy)
price to null. -/
def getDataPlanPriceWith (fetched : DataPlansResponse) (packageCode : String)
    (priceType : PriceType) : Option Int :=
  match findDataPlan fetched packageCode with
  | none => none
  | some plan =>
      if priceField plan priceType == 0 then none
      else some (priceField plan priceType)

/-- Embeds the call `getDataPlanPrice(packageCode)` with the `priceType`
parameter left to its declared default `"regular"`. -/
def getDataPlanPrice (fetched : DataPlansResponse) (packageCode : String) :
    Option Int :=
  getDataPlanPriceWith fetched packageCode PriceType.regular

/-- Spec-side description of the local part of the phone pattern: a digit
in 7..9, a digit in 0..1, then exactly eight more digits. -/
def Local10Spec (l : List Char) : Prop :=
  ∃ a b ds, l = a :: b :: ds ∧ (a = '7' ∨ a = '8' ∨ a = '9') ∧
    (b = '0' ∨ b = '1') ∧ ds.length = 8 ∧ ∀ c ∈ ds, isDigitCh c = true

/-- Spec-side description of the full anchored phone pattern: an optional
country prefix that is `+234`, `234` or `0`, followed by the local part,
covering the whole string. -/
def NgPatternSpec (l : List Char) : Prop :=
  ∃ p r, l = p ++ r ∧
    (p = ['+', '2', '3', '4'] ∨ p = ['2', '3', '4'] ∨ p = ['0'] ∨ p = ([] : List Char)) ∧
    Local10Spec r

/-- Whether an operation's result is a synchronously raised error (so no
`makeRequest` invocation took place). -/
def isErrorResult {α β : Type} : Except α β → Bool
  | Except.error _ => true
  | Except.ok _ => false

/-- A concrete mtn catalog entry used to evaluate the theorems. -/
def planEx1 : DataPlan :=
  ⟨"mtn", "1GB monthly", "MTN1GB", 1, "30 days", 300, 290, 280, "NGN"⟩

/-- A concrete glo catalog entry used to evaluate the theorems. -/
def planEx2 : DataPlan :=
  ⟨"glo", "2GB monthly", "GLO2GB", 2, "30 days", 500, 480, 460, "NGN"⟩

theorem toList_asString (l : List Char) : (l.asString).toList = l := rfl

theorem asString_toList (s : String) : s.toList.asString = s := rfl

theorem toList_formatPhone (phone : String) :
    (formatPhone phone).toList = formatPhoneL phone.toList := rfl

theorem local10_iff (l : List Char) : local10 l = true ↔ Local10Spec l := by
  constructor
  · intro h
    unfold local10 at h
    split at h
    · rename_i a b rest
      simp only [Bool.and_eq_true, Bool.or_eq_true, beq_iff_eq, or_assoc] at h
      obtain ⟨⟨⟨ha, hb⟩, hlen⟩, hall⟩ := h
      exact ⟨a, b, rest, rfl, ha, hb, hlen, List.all_eq_true.mp hall⟩
    · simp at h
  · rintro ⟨a, b, ds, rfl, ha, hb, hlen, hds⟩
    simp only [local10, Bool.and_eq_true, Bool.or_eq_true, beq_iff_eq, or_assoc]
    exact ⟨⟨⟨ha, hb⟩, hlen⟩, List.all_eq_true.mpr hds⟩

theorem isPrefixOf_split {p l : List Char} (h : List.isPrefixOf p l = true) :
    ∃ t, l = p ++ t := by
  induction p generalizing l with
  | nil => exact ⟨l, rfl⟩
  | cons a as ih =>
    cases l with
    | nil => simp [List.isPrefixOf] at h
    | cons b bs =>
      simp only [List.isPrefixOf, Bool.and_eq_true, beq_iff_eq] at h
      obtain ⟨rfl, h2⟩ := h
      obtain ⟨t, rfl⟩ := ih h2
      exact ⟨t, rfl⟩

theorem isPrefixOf_append_self (p t : List Char) :
    List.isPrefixOf p (p ++ t) = true := by
  induction p with
  | nil => simp [List.isPrefixOf]
  | cons a as ih => simp [List.isPrefixOf, ih]

theorem ngMatch_iff (l : List Char) : ngMatch l = true ↔ NgPatternSpec l := by
  constructor
  · intro h
    simp only [ngMatch, Bool.or_eq_true, Bool.and_eq_true, or_assoc] at h
    rcases h with ⟨hp, hl⟩ | ⟨hp, hl⟩ | ⟨hp, hl⟩ | hl
    · obtain ⟨t, rfl⟩ := isPrefixOf_split hp
      have e : ((['+', '2', '3', '4'] : List Char) ++ t).drop 4 = t := rfl
      rw [e] at hl
      exact ⟨['+', '2', '3', '4'], t, rfl, Or.inl rfl, (local10_iff t).mp hl⟩
    · obtain ⟨t, rfl⟩ := isPrefixOf_split hp
      have e : ((['2', '3', '4'] : List Char) ++ t).drop 3 = t := rfl
      rw [e] at hl
      exact ⟨['2', '3', '4'], t, rfl, Or.inr (Or.inl rfl), (local10_iff t).mp hl⟩
    · obtain ⟨t, rfl⟩ := isPrefixOf_split hp
      have e : ((['0'] : List Char) ++ t).drop 1 = t := rfl
      rw [e] at hl
      exact ⟨['0'], t, rfl, Or.inr (Or.inr (Or.inl rfl)), (local10_iff t).mp hl⟩
    · exact ⟨[], l, rfl, Or.inr (Or.inr (Or.inr rfl)), (local10_iff l).mp hl⟩
  · rintro ⟨p, r, rfl, hp, hr⟩
    simp only [ngMatch, Bool.or_eq_true, Bool.and_eq_true, or_assoc]
    have hr' : local10 r = true := (local10_iff r).mpr hr
    rcases hp with rfl | rfl | rfl | rfl
    · exact Or.inl ⟨isPrefixOf_append_self _ r, hr'⟩
    · exact Or.inr (Or.inl ⟨isPrefixOf_append_self _ r, hr'⟩)
    · exact Or.inr (Or.inr (Or.inl ⟨isPrefixOf_append_self _ r, hr'⟩))
    · exact Or.inr (Or.inr (Or.inr (by simpa using hr')))

theorem isJsWhitespace_of_digit {c : Char} (h : isDigitCh c = true) :
    isJsWhitespace c = false := by
  simp only [isDigitCh, Bool.and_eq_true, decide_eq_true_eq] at h
  have hm : c.toNat ∉
      [0x09, 0x0A, 0x0B, 0x0C, 0x0D, 0x20, 0xA0, 0x1680,
       0x2000, 0x2001, 0x2002, 0x2003, 0x2004, 0x2005, 0x2006, 0x2007,
       0x2008, 0x2009, 0x200A, 0x2028, 0x2029, 0x202F, 0x205F, 0x3000,
       0xFEFF] := by
    intro hm
    simp only [List.mem_cons, List.not_mem_nil, or_false] at hm
    omega
  simpa [isJsWhitespace] using hm

theorem stripWs_of_local10 {l : List Char} (h : Local10Spec l) :
    stripWs l = l := by
  obtain ⟨a, b, ds, rfl, ha, hb, _, hds⟩ := h
  apply List.filter_eq_self.mpr
  intro c hc
  simp only [List.mem_cons] at hc
  rcases hc with rfl | rfl | hc
  · rcases ha with rfl | rfl | rfl <;> decide
  · rcases hb with rfl | rfl <;> decide
  · simp [isJsWhitespace_of_digit (hds c hc)]

theorem dropNgCode_of_ngMatch {c : List Char} (h : ngMatch c = true) :
    Local10Spec (dropNgCode c) := by
  simp only [ngMatch, Bool.or_eq_true, Bool.and_eq_true, or_assoc] at h
  rcases h with ⟨hp, hl⟩ | ⟨hp, hl⟩ | ⟨hp, hl⟩ | hl
  · obtain ⟨t, rfl⟩ := isPrefixOf_split hp
    have e : dropNgCode (['+', '2', '3', '4'] ++ t) = t := by
      simp [dropNgCode, List.isPrefixOf]
    rw [e]
    have e' : ((['+', '2', '3', '4'] : List Char) ++ t).drop 4 = t := rfl
    rw [e'] at hl
    exact (local10_iff t).mp hl
  · obtain ⟨t, rfl⟩ := isPrefixOf_split hp
    have e : dropNgCode (['2', '3', '4'] ++ t) = t := by
      simp [dropNgCode, List.isPrefixOf]
    rw [e]
    have e' : ((['2', '3', '4'] : List Char) ++ t).drop 3 = t := rfl
    rw [e'] at hl
    exact (local10_iff t).mp hl
  · obtain ⟨t, rfl⟩ := isPrefixOf_split hp
    have e : dropNgCode (['0'] ++ t) = t := by
      simp [dropNgCode, List.isPrefixOf]
    rw [e]
    have e' : ((['0'] : List Char) ++ t).drop 1 = t := rfl
    rw [e'] at hl
    exact (local10_iff t).mp hl
  · have hs := (local10_iff c).mp hl
    obtain ⟨a, b, ds, rfl, ha, hb, hlen, hds⟩ := hs
    have e : dropNgCode (a :: b :: ds) = a :: b :: ds := by
      rcases ha with rfl | rfl | rfl <;> simp [dropNgCode, List.isPrefixOf]
    rw [e]
    exact ⟨a, b, ds, rfl, ha, hb, hlen, hds⟩

theorem local10_of_valid {phone : String} (h : isValidPhone phone = true) :
    Local10Spec ((formatPhone phone).toList) := by
  rw [toList_formatPhone]
  exact dropNgCode_of_ngMatch h

theorem truthyS_iff {o : Option String} :
    truthyS o = true ↔ ∃ s, o = some s ∧ s ≠ "" := by
  cases o with
  | none => simp [truthyS]
  | some s => simp [truthyS]

theorem truthyI_iff {o : Option Int} :
    truthyI o = true ↔ ∃ n, o = some n ∧ n ≠ 0 := by
  cases o with
  | none => simp [truthyI]
  | some n => simp [truthyI]

/-- Claim C1: every `purchaseAirtime` call whose parameters have a network
operator outside the four allowed carriers, or an amount below 50 or above
50000, or any of the four required parameters missing, throws a validation
error synchronously, so `makeRequest` is never invoked (an `Except.error`
result is exactly a throw before the single modelled `makeRequest`
invocation). -/
theorem claim_C1_airtime_validation (p : AirtimePurchaseParams)
    (h : (∃ op, p.networkOperator = some op ∧ op ∉ allowedOperators) ∨
         (∃ a, p.amount = some a ∧ (a < 50 ∨ 50000 < a)) ∨
         p.networkOperator = none ∨ p.phone = none ∨
         p.amount = none ∨ p.maxAmount = none) :
    ∃ e, purchaseAirtime p = Except.error e := by
  unfold purchaseAirtime
  cases hc1 : (!(truthyS p.networkOperator) || !(truthyS p.phone) ||
      !(truthyI p.amount) || !(truthyS p.maxAmount)) with
  | true => exact ⟨_, rfl⟩
  | false =>
    simp only [Bool.or_eq_false_iff, Bool.not_eq_false'] at hc1
    obtain ⟨⟨⟨hno, hph⟩, ham⟩, hma⟩ := hc1
    obtain ⟨opv, hopv, hopne⟩ := truthyS_iff.mp hno
    obtain ⟨av, hav, havne⟩ := truthyI_iff.mp ham
    cases hc2 : (!(allowedOperators.contains (p.networkOperator.getD ""))) with
    | true => exact ⟨_, rfl⟩
    | false =>
      simp only [Bool.not_eq_false'] at hc2
      cases hc3 : ((decide (p.amount.getD 0 < 50)) || (decide (50000 < p.amount.getD 0))) with
      | true => exact ⟨_, rfl⟩
      | false =>
        exfalso
        simp only [Bool.or_eq_false_iff, decide_eq_false_iff_not] at hc3
        rw [hav] at hc3
        rcases h with ⟨op, hop, hmem⟩ | ⟨a, ha, hbound⟩ | hn | hn | hn | hn
        · rw [hop] at hopv hc2
          simp only [Option.getD_some] at hc2
          exact hmem (by simpa using hc2)
        · rw [ha] at hav
          obtain rfl : a = av := by injection hav
          obtain ⟨h1, h2⟩ := hc3
          simp only [Option.getD_some] at h1 h2
          omega
        · rw [hn] at hopv; exact absurd hopv (by simp [truthyS])
        · rw [hn] at hph; exact absurd hph (by simp [truthyS])
        · rw [hn] at hav; exact absurd hav (by simp)
        · rw [hn] at hma; exact absurd hma (by simp [truthyS])

/-- Claim C1 witness: `purchaseAirtime` with operator `sprint` is rejected
without a request. -/
theorem claim_C1_witness :
    isErrorResult (purchaseAirtime
      ⟨some "sprint", some "08012345678", some 100, some "100", none, none⟩) = true := by
  obtain ⟨e, he⟩ := claim_C1_airtime_validation
    ⟨some "sprint", some "08012345678", some 100, some "100", none, none⟩
    (Or.inl ⟨"sprint", rfl, by decide⟩)
  rw [he]
  rfl

/-- Claim C2 counterexample: a call to `purchaseData` supplying only
`planId = 0` (phone present, no `packageCode`).  The claim as stated says
the outgoing body then contains `plan_id`; the code instead treats the
zero `planId` as missing and throws the plan-identifier validation error,
so no request is issued at all. -/
theorem claim_C2_counterexample :
    purchaseData ⟨some "08012345678", none, some 0, none, none, none⟩ =
      Except.error "Either packageCode or planId is required" := rfl

/-- Claim C2 (amended): in both `purchaseData` and `vendDataFromWallet`,
with "supplied" read as supplying a truthy value (a non-empty package
code, a non-zero plan id — the code's convention, cf. claim C10): if
neither is supplied the call throws before any request; if a non-empty
`packageCode` is supplied (with any `planId`) the body carries
`package_code` and no `plan_id`; if only a non-zero `planId` is supplied
the body carries `plan_id` and no `package_code`. -/
theorem claim_C2_plan_identifier (p : DataPurchaseParams)
    (q : DataWalletVendParams) :
    ((truthyS p.packageCode = false → truthyI p.planId = false →
        ∃ e, purchaseData p = Except.error e) ∧
     (∀ pc m, p.packageCode = some pc → pc ≠ "" → p.planId = some m →
        ∀ call, purchaseData p = Except.ok call →
          call.body.package_code = some pc ∧ call.body.plan_id = none) ∧
     (∀ n, truthyS p.packageCode = false → p.planId = some n → n ≠ 0 →
        ∀ call, purchaseData p = Except.ok call →
          call.body.plan_id = some n ∧ call.body.package_code = none)) ∧
    ((truthyS q.packageCode = false → truthyI q.planId = false →
        ∃ e, vendDataFromWallet q = Except.error e) ∧
     (∀ pc m, q.packageCode = some pc → pc ≠ "" → q.planId = some m →
        ∀ call, vendDataFromWallet q = Except.ok call →
          call.body.package_code = some pc ∧ call.body.plan_id = none) ∧
     (∀ n, truthyS q.packageCode = false → q.planId = some n → n ≠ 0 →
        ∀ call, vendDataFromWallet q = Except.ok call →
          call.body.plan_id = some n ∧ call.body.package_code = none)) := by
  constructor
  · refine ⟨?_, ?_, ?_⟩
    · intro hpc hid
      unfold purchaseData
      cases hc1 : (!(truthyS p.phone)) with
      | true => exact ⟨_, rfl⟩
      | false =>
        cases hc2 : (!(truthyS p.packageCode) && !(truthyI p.planId)) with
        | true => exact ⟨_, rfl⟩
        | false => simp [hpc, hid] at hc2
    · intro pc m hpc hne hm call hcall
      unfold purchaseData at hcall
      have hts : truthyS p.packageCode = true := by simp [hpc, truthyS, hne]
      split at hcall
      · exact absurd hcall (by simp)
      · split at hcall
        · exact absurd hcall (by simp)
        · simp only [Except.ok.injEq] at hcall
          subst hcall
          simp [hpc, truthyS, hne]
    · intro n hpc hn hne call hcall
      unfold purchaseData at hcall
      have hti : truthyI p.planId = true := by simp [hn, truthyI, hne]
      split at hcall
      · exact absurd hcall (by simp)
      · split at hcall
        · exact absurd hcall (by simp)
        · simp only [Except.ok.injEq] at hcall
          subst hcall
          simp [hpc, hn, truthyI, hne]
  · refine ⟨?_, ?_, ?_⟩
    · intro hpc hid
      unfold vendDataFromWallet
      cases hc1 : (!(truthyS q.phone)) with
      | true => exact ⟨_, rfl⟩
      | false =>
        cases hc2 : (!(truthyS q.packageCode) && !(truthyI q.planId)) with
        | true => exact ⟨_, rfl⟩
        | false => simp [hpc, hid] at hc2
    · intro pc m hpc hne hm call hcall
      unfold vendDataFromWallet at hcall
      have hts : truthyS q.packageCode = true := by simp [hpc, truthyS, hne]
      split at hcall
      · exact absurd hcall (by simp)
      · split at hcall
        · exact absurd hcall (by simp)
        · split at hcall
          · exact absurd hcall (by simp)
          · simp only [Except.ok.injEq] at hcall
            subst hcall
            simp [hpc, truthyS, hne]
    · intro n hpc hn hne call hcall
      unfold vendDataFromWallet at hcall
      have hti : truthyI q.planId = true := by simp [hn, truthyI, hne]
      split at hcall
      · exact absurd hcall (by simp)
      · split at hcall
        · exact absurd hcall (by simp)
        · split at hcall
          · exact absurd hcall (by simp)
          · simp only [Except.ok.injEq] at hcall
            subst hcall
            simp [hpc, hn, truthyI, hne]

/-- Claim C2 witness: a `purchaseData` call with neither plan identifier
is rejected without a request. -/
theorem claim_C2_witness :
    isErrorResult (purchaseData
      ⟨some "08031112222", none, none, none, none, none⟩) = true := by
  obtain ⟨e, he⟩ := (claim_C2_plan_identifier
    ⟨some "08031112222", none, none, none, none, none⟩
    ⟨some "08031112222", none, none, none, none, none⟩).1.1 rfl rfl
  rw [he]
  rfl

/-- Claim C3 counterexample: `vendDataFromWallet` with `processType`
supplied as the empty string — a supplied value that is neither `queue`
nor `instant`.  The claim as stated says the call must throw; the code's
truthiness guard skips the check for a falsy string, issues the request,
and omits `process_type` from the body. -/
theorem claim_C3_counterexample :
    vendDataFromWallet ⟨some "08012345678", some "PKG100", none, some "", none, none⟩ =
      Except.ok ⟨"/data/wallet", "POST",
        ⟨"08012345678", some "PKG100", none, none, none, none⟩⟩ := rfl

/-- Claim C3 (amended): in `vendDataFromWallet`, a `processType` supplied
as a non-empty string other than `queue`/`instant` throws before any
request; when `processType` is omitted (or supplied empty, which the code
treats as omitted) the body carries no `process_type`; when it is `queue`
or `instant` the body's `process_type` equals it. -/
theorem claim_C3_process_type (q : DataWalletVendParams) :
    (∀ s, q.processType = some s → s ≠ "" → s ≠ "queue" → s ≠ "instant" →
       ∃ e, vendDataFromWallet q = Except.error e) ∧
    ((q.processType = none ∨ q.processType = some "") →
       ∀ call, vendDataFromWallet q = Except.ok call →
         call.body.process_type = none) ∧
    (∀ s, (s = "queue" ∨ s = "instant") → q.processType = some s →
       ∀ call, vendDataFromWallet q = Except.ok call →
         call.body.process_type = some s) := by
  refine ⟨?_, ?_, ?_⟩
  · intro s hs hne hq hi
    unfold vendDataFromWallet
    cases hc1 : (!(truthyS q.phone)) with
    | true => exact ⟨_, rfl⟩
    | false =>
      cases hc2 : (!(truthyS q.packageCode) && !(truthyI q.planId)) with
      | true => exact ⟨_, rfl⟩
      | false =>
        cases hc3 : (truthyS q.processType &&
            !(["queue", "instant"].contains (q.processType.getD ""))) with
        | true => exact ⟨_, rfl⟩
        | false =>
          exfalso
          have hts : truthyS q.processType = true := by simp [hs, truthyS, hne]
          rw [hts, hs] at hc3
          simp only [Option.getD_some, Bool.true_and, Bool.not_eq_false'] at hc3
          rcases (by simpa using hc3 : s = "queue" ∨ s = "instant") with rfl | rfl
          · exact hq rfl
          · exact hi rfl
  · intro hcase call hcall
    have hts : truthyS q.processType = false := by
      rcases hcase with hn | hn <;> simp [hn, truthyS]
    unfold vendDataFromWallet at hcall
    split at hcall
    · exact absurd hcall (by simp)
    · split at hcall
      · exact absurd hcall (by simp)
      · split at hcall
        · exact absurd hcall (by simp)
        · simp only [Except.ok.injEq] at hcall
          subst hcall
          simp [hts]
  · intro s hval hs call hcall
    have hts : truthyS q.processType = true := by
      rcases hval with rfl | rfl <;> simp [hs, truthyS]
    unfold vendDataFromWallet at hcall
    split at hcall
    · exact absurd hcall (by simp)
    · split at hcall
      · exact absurd hcall (by simp)
      · split at hcall
        · exact absurd hcall (by simp)
        · simp only [Except.ok.injEq] at hcall
          subst hcall
          simp [hts, hs]

/-- Claim C3 witness: `processType = "later"` is rejected without a
request. -/
theorem claim_C3_witness :
    isErrorResult (vendDataFromWallet
      ⟨some "08045556666", some "PKG200", none, some "later", none, none⟩) = true := by
  obtain ⟨e, he⟩ := (claim_C3_process_type
    ⟨some "08045556666", some "PKG200", none, some "later", none, none⟩).1
    "later" rfl (by decide) (by decide) (by decide)
  rw [he]
  rfl

/-- Claim C10: in `purchaseData` and `vendDataFromWallet`, a `planId` of 0
and an empty-string `packageCode` are treated as absent: supplying only
`planId = 0` (phone present, no `packageCode`) throws exactly the
plan-identifier validation error before any request, and no issued
request body ever carries `plan_id = 0` or `package_code = ""`. -/
theorem claim_C10_falsy_identifiers :
    (∀ p : DataPurchaseParams, truthyS p.phone = true → p.packageCode = none →
       p.planId = some 0 →
       purchaseData p = Except.error "Either packageCode or planId is required") ∧
    (∀ q : DataWalletVendParams, truthyS q.phone = true → q.packageCode = none →
       q.planId = some 0 →
       vendDataFromWallet q = Except.error "Either packageCode or planId is required") ∧
    (∀ (p : DataPurchaseParams) call, purchaseData p = Except.ok call →
       call.body.plan_id ≠ some 0 ∧ call.body.package_code ≠ some "") ∧
    (∀ (q : DataWalletVendParams) call, vendDataFromWallet q = Except.ok call →
       call.body.plan_id ≠ some 0 ∧ call.body.package_code ≠ some "") := by
  refine ⟨?_, ?_, ?_, ?_⟩
  · intro p hph hpc hid
    unfold purchaseData
    rw [hph]
    simp [hpc, hid, truthyS, truthyI]
  · intro q hph hpc hid
    unfold vendDataFromWallet
    rw [hph]
    simp [hpc, hid, truthyS, truthyI]
  · intro p call hcall
    unfold purchaseData at hcall
    split at hcall
    · exact absurd hcall (by simp)
    · split at hcall
      · exact absurd hcall (by simp)
      · simp only [Except.ok.injEq] at hcall
        subst hcall
        constructor
        · simp only
          cases hti : (truthyI p.planId && !(truthyS p.packageCode)) with
          | false => simp
          | true =>
            simp only [if_pos rfl]
            obtain ⟨n, hn, hne⟩ := truthyI_iff.mp (by
              simp only [Bool.and_eq_true] at hti
              exact hti.1)
            rw [hn]
            simp [hne]
        · simp only
          cases hts : (truthyS p.packageCode) with
          | false => simp
          | true =>
            simp only [if_pos rfl]
            obtain ⟨s, hs, hne⟩ := truthyS_iff.mp hts
            rw [hs]
            simp [hne]
  · intro q call hcall
    unfold vendDataFromWallet at hcall
    split at hcall
    · exact absurd hcall (by simp)
    · split at hcall
      · exact absurd hcall (by simp)
      · split at hcall
        · exact absurd hcall (by simp)
        · simp only [Except.ok.injEq] at hcall
          subst hcall
          constructor
          · simp only
            cases hti : (truthyI q.planId && !(truthyS q.packageCode)) with
            | false => simp
            | true =>
              simp only [if_pos rfl]
              obtain ⟨n, hn, hne⟩ := truthyI_iff.mp (by
                simp only [Bool.and_eq_true] at hti
                exact hti.1)
              rw [hn]
              simp [hne]
          · simp only
            cases hts : (truthyS q.packageCode) with
            | false => simp
            | true =>
              simp only [if_pos rfl]
              obtain ⟨s, hs, hne⟩ := truthyS_iff.mp hts
              rw [hs]
              simp [hne]

/-- Claim C10 witness: concrete `purchaseData` call with only
`planId = 0`, rejected with the plan-identifier error. -/
theorem claim_C10_witness :
    purchaseData ⟨some "07011112222", none, some 0, none, none, none⟩ =
      Except.error "Either packageCode or planId is required" :=
  claim_C10_falsy_identifiers.1
    ⟨some "07011112222", none, some 0, none, none, none⟩ rfl rfl rfl

theorem find?_first {α : Type} (p : α → Bool) (a : α) (l2 : List α) :
    ∀ l1 : List α, (∀ x ∈ l1, p x = false) → p a = true →
      List.find? p (l1 ++ a :: l2) = some a := by
  intro l1
  induction l1 with
  | nil =>
    intro _ ha
    simpa [List.find?_cons] using List.find?_cons_of_pos l2 ha
  | cons b t ih =>
    intro h ha
    have hb : p b = false := h b (List.mem_cons_self b t)
    rw [List.cons_append, List.find?_cons_of_neg _ (by simp [hb])]
    exact ih (fun x hx => h x (List.mem_cons_of_mem b hx)) ha

/-- Claim C4: for a valid operator, `getDataPlansByOperator` returns
exactly the fetched catalog entries whose `network_operator` equals the
argument, in catalog order (the result is the order-preserving sublist of
matching entries), and returns the empty list without throwing whenever
the envelope's `success` flag is false or its plan list is absent. -/
theorem claim_C4_plans_by_operator (op : String) (env : DataPlansResponse)
    (hop : op ∈ allowedOperators) :
    (∀ plans, env.success = true → env.data = some plans →
       getDataPlansByOperator op env =
         Except.ok (plans.filter (fun plan => plan.network_operator == op)) ∧
       List.Sublist (plans.filter (fun plan => plan.network_operator == op)) plans ∧
       ∀ plan, plan ∈ plans.filter (fun pl => pl.network_operator == op) ↔
         plan ∈ plans ∧ plan.network_operator = op) ∧
    ((env.success = false ∨ env.data = none) →
       getDataPlansByOperator op env = Except.ok []) := by
  have hcontains : allowedOperators.contains op = true := by simpa using hop
  obtain ⟨su, da⟩ := env
  constructor
  · intro plans hsu hda
    replace hsu : su = true := hsu
    replace hda : da = some plans := hda
    subst hsu
    subst hda
    refine ⟨?_, List.filter_sublist _, ?_⟩
    · simp [getDataPlansByOperator, hcontains, hop]
    · intro plan
      rw [List.mem_filter]
      simp
  · intro hcase
    rcases hcase with hsu | hda
    · replace hsu : su = false := hsu
      subst hsu
      cases da <;> simp [getDataPlansByOperator, hcontains, hop]
    · replace hda : da = none := hda
      subst hda
      cases su <;> simp [getDataPlansByOperator, hcontains, hop]

/-- Claim C4 witness: filtering a concrete two-entry catalog for mtn
keeps exactly the mtn entry. -/
theorem claim_C4_witness :
    getDataPlansByOperator "mtn" ⟨true, some [planEx1, planEx2]⟩ =
      Except.ok [planEx1] := by
  have h := (claim_C4_plans_by_operator "mtn" ⟨true, some [planEx1, planEx2]⟩
    (by decide)).1 [planEx1, planEx2] rfl rfl
  exact h.1.trans (by rfl)

/-- Claim C6: `findDataPlan` returns the first catalog entry whose
`package_code` equals the argument exactly, and `none` when no entry
matches or the envelope's `success` flag is false or its plan list is
absent. -/
theorem claim_C6_find_data_plan (env : DataPlansResponse) (pc : String) :
    ((env.success = false ∨ env.data = none) → findDataPlan env pc = none) ∧
    (∀ plans, env.success = true → env.data = some plans →
       ((∀ plan ∈ plans, plan.package_code ≠ pc) → findDataPlan env pc = none) ∧
       (∀ l1 plan l2, plans = l1 ++ plan :: l2 → plan.package_code = pc →
          (∀ q ∈ l1, q.package_code ≠ pc) → findDataPlan env pc = some plan)) := by
  obtain ⟨su, da⟩ := env
  constructor
  · intro hcase
    rcases hcase with hsu | hda
    · replace hsu : su = false := hsu
      subst hsu
      cases da <;> simp [findDataPlan]
    · replace hda : da = none := hda
      subst hda
      cases su <;> simp [findDataPlan]
  · intro plans hsu hda
    replace hsu : su = true := hsu
    replace hda : da = some plans := hda
    subst hsu
    subst hda
    constructor
    · intro hnone
      show plans.find? (fun plan => plan.package_code == pc) = none
      apply List.find?_eq_none.mpr
      intro x hx
      simp [hnone x hx]
    · intro l1 plan l2 hsplit hmatch hmiss
      show plans.find? (fun plan => plan.package_code == pc) = some plan
      rw [hsplit]
      exact find?_first _ plan l2 l1 (fun x hx => by simp [hmiss x hx])
        (by simp [hmatch])

/-- Claim C6 witness: the first matching entry of a concrete catalog is
found; the miss hypotheses are discharged on the prior entries. -/
theorem claim_C6_witness :
    findDataPlan ⟨true, some [planEx2, planEx1]⟩ "MTN1GB" = some planEx1 :=
  ((claim_C6_find_data_plan ⟨true, some [planEx2, planEx1]⟩ "MTN1GB").2
    [planEx2, planEx1] rfl rfl).2 [planEx2] planEx1 [] rfl (by decide) (by decide)

/-- Claim C5: `getDataPlanPrice` uses the regular tier when the tier is
omitted; it returns `none` when the plan is not found or the selected
tier's price is zero (falsy), and otherwise the found plan's price for
the requested tier, with regular, agent and dealer mapping to the
`regular_price`, `agent_price` and `dealer_price` fields. -/
theorem claim_C5_plan_price (env : DataPlansResponse) (pc : String) :
    (getDataPlanPrice env pc = getDataPlanPriceWith env pc PriceType.regular) ∧
    (findDataPlan env pc = none → ∀ t, getDataPlanPriceWith env pc t = none) ∧
    (∀ plan, findDataPlan env pc = some plan →
       (plan.regular_price = 0 →
          getDataPlanPriceWith env pc PriceType.regular = none) ∧
       (plan.regular_price ≠ 0 →
          getDataPlanPriceWith env pc PriceType.regular = some plan.regular_price) ∧
       (plan.agent_price = 0 →
          getDataPlanPriceWith env pc PriceType.agent = none) ∧
       (plan.agent_price ≠ 0 →
          getDataPlanPriceWith env pc PriceType.agent = some plan.agent_price) ∧
       (plan.dealer_price = 0 →
          getDataPlanPriceWith env pc PriceType.dealer = none) ∧
       (plan.dealer_price ≠ 0 →
          getDataPlanPriceWith env pc PriceType.dealer = some plan.dealer_price)) := by
  refine ⟨rfl, ?_, ?_⟩
  · intro h t
    unfold getDataPlanPriceWith
    rw [h]
  · intro plan h
    refine ⟨?_, ?_, ?_, ?_, ?_, ?_⟩ <;> intro hz <;>
      unfold getDataPlanPriceWith <;> rw [h] <;> simp [priceField, hz]

/-- Claim C5 witness: the regular price of a found plan with a non-zero
regular price is returned. -/
theorem claim_C5_witness :
    getDataPlanPriceWith ⟨true, some [planEx1]⟩ "MTN1GB" PriceType.regular =
      some 300 := by
  have h := ((claim_C5_plan_price ⟨true, some [planEx1]⟩ "MTN1GB").2.2
    planEx1 rfl).2.1 (by decide)
  exact h.trans (by rfl)

/-- Claim C7: `isValidPhone` returns true exactly when the
whitespace-stripped input matches, anchored at both ends, an optional
prefix `+234`/`234`/`0` followed by a digit in 7..9, a digit in 0..1 and
eight more digits; it returns false for every other string (the pure
embedding has no side effects). -/
theorem claim_C7_is_valid_phone (phone : String) :
    isValidPhone phone = true ↔ NgPatternSpec (stripWs phone.toList) :=
  ngMatch_iff (stripWs phone.toList)

/-- Claim C8: `formatPhone` strips all whitespace, then removes exactly
one leading prefix — first match among `+234` (drop 4), `234` (drop 3),
`0` (drop 1) — and otherwise returns the stripped string unchanged; it
is total (never throws), validates nothing beyond the prefix, and is the
identity on already-stripped 10-digit local numbers. -/
theorem claim_C8_format_phone (phone : String) :
    (∀ r, stripWs phone.toList = '+' :: '2' :: '3' :: '4' :: r →
       (formatPhone phone).toList = r) ∧
    (∀ r, stripWs phone.toList = '2' :: '3' :: '4' :: r →
       (formatPhone phone).toList = r) ∧
    (∀ r, stripWs phone.toList = '0' :: r → (formatPhone phone).toList = r) ∧
    (List.isPrefixOf ['+', '2', '3', '4'] (stripWs phone.toList) = false →
     List.isPrefixOf ['2', '3', '4'] (stripWs phone.toList) = false →
     List.isPrefixOf ['0'] (stripWs phone.toList) = false →
     (formatPhone phone).toList = stripWs phone.toList) ∧
    (∀ s : String, local10 s.toList = true → formatPhone s = s) := by
  refine ⟨?_, ?_, ?_, ?_, ?_⟩
  · intro r h
    rw [toList_formatPhone]
    unfold formatPhoneL
    rw [h]
    simp [dropNgCode, List.isPrefixOf]
  · intro r h
    rw [toList_formatPhone]
    unfold formatPhoneL
    rw [h]
    simp [dropNgCode, List.isPrefixOf]
  · intro r h
    rw [toList_formatPhone]
    unfold formatPhoneL
    rw [h]
    simp [dropNgCode, List.isPrefixOf]
  · intro h1 h2 h3
    rw [toList_formatPhone]
    unfold formatPhoneL dropNgCode
    simp only [h1, h2, h3]
    simp
  · intro s hs
    have hspec := (local10_iff s.toList).mp hs
    have hstrip : stripWs s.toList = s.toList := stripWs_of_local10 hspec
    obtain ⟨a, b, ds, e, ha, hb, _, _⟩ := hspec
    have hdrop : dropNgCode s.toList = s.toList := by
      rw [e]
      rcases ha with rfl | rfl | rfl <;> simp [dropNgCode, List.isPrefixOf]
    show (formatPhoneL s.toList).asString = s
    unfold formatPhoneL
    rw [hstrip, hdrop, asString_toList]

/-- Claim C8 witness: a `0`-prefixed input with embedded spaces is
stripped and its leading zero dropped. -/
theorem claim_C8_witness :
    (formatPhone "0 803 555 1234").toList =
      ['8', '0', '3', '5', '5', '5', '1', '2', '3', '4'] :=
  (claim_C8_format_phone "0 803 555 1234").2.2.1
    ['8', '0', '3', '5', '5', '5', '1', '2', '3', '4'] (by decide)

/-- Claim C9: on every input accepted by `isValidPhone`, `formatPhone`
yields exactly 10 digit characters starting with a digit in 7..9 then one
in 0..1 (the `local10` shape); consequently the result is itself accepted
by `isValidPhone` and is a fixed point of `formatPhone`. -/
theorem claim_C9_roundtrip (phone : String) (h : isValidPhone phone = true) :
    (formatPhone phone).toList.length = 10 ∧
    (∀ c ∈ (formatPhone phone).toList, isDigitCh c = true) ∧
    local10 ((formatPhone phone).toList) = true ∧
    isValidPhone (formatPhone phone) = true ∧
    formatPhone (formatPhone phone) = formatPhone phone := by
  obtain ⟨a, b, ds, e, ha, hb, hlen, hds⟩ := local10_of_valid h
  have hspec : Local10Spec ((formatPhone phone).toList) :=
    ⟨a, b, ds, e, ha, hb, hlen, hds⟩
  refine ⟨?_, ?_, ?_, ?_, ?_⟩
  · rw [e]
    simp [hlen]
  · intro c hc
    rw [e] at hc
    simp only [List.mem_cons] at hc
    rcases hc with rfl | rfl | hc
    · rcases ha with rfl | rfl | rfl <;> decide
    · rcases hb with rfl | rfl <;> decide
    · exact hds c hc
  · exact (local10_iff _).mpr hspec
  · show ngMatch (stripWs (formatPhone phone).toList) = true
    rw [stripWs_of_local10 hspec]
    have h10 : local10 ((formatPhone phone).toList) = true :=
      (local10_iff _).mpr hspec
    unfold ngMatch
    rw [h10]
    simp
  · show (formatPhoneL (formatPhone phone).toList).asString = formatPhone phone
    unfold formatPhoneL
    rw [stripWs_of_local10 hspec]
    have hdrop : dropNgCode ((formatPhone phone).toList) =
        (formatPhone phone).toList := by
      rw [e]
      rcases ha with rfl | rfl | rfl <;> simp [dropNgCode, List.isPrefixOf]
    rw [hdrop, asString_toList]

/-- Claim C9 witness: a valid `+234` number normalizes to a fixed point
of `formatPhone`. -/
theorem claim_C9_witness :
    formatPhone (formatPhone "+234 802 345 6789") =
      formatPhone "+234 802 345 6789" :=
  (claim_C9_roundtrip "+234 802 345 6789" (by decide)).2.2.2.2

end AirtimeNigeria
